import Mathlib

/-!
Verification of the challenge-response authentication core of
QuestTracker-FrontendApi against its specification.

The embedding below translates, from the TypeScript source:
  - `src/connectors/RedisConnector.ts` (class `RedisAuthConnector`): the
    Nonce Ledger and Token Ledger over the ephemeral redis store;
  - `src/services/AdminLoginService.ts` (class `AdminLoginService`): the
    authentication orchestrator;
  - `src/controllers/AuthController.ts`: the `GET /:userId/nonce` handler
    (the `beginLogin` operation of the spec, which composes
    `retrieveNonceForLogin` and `getUserSalt`).

Modelling decisions:
  - The redis store is a string-keyed map `String → Option StoreEntry`; a key
    being present models "present and unexpired" (redis TTL expiry is modelled
    as the key simply being absent; the stored TTL value is recorded so that
    the configured expiration times can be stated).
  - `client.get(key, (err, reply) => ...)` callbacks receive an error flag on
    connectivity failure; this is modelled by `Env.readErr`, the set of keys
    whose reads fail during the window under consideration.
  - The `uuid()` and `nonce()` generators are modelled as environment-supplied
    streams `Env.uuids` / `Env.nonceGen`, consumed via counters in `World`.
  - `bcrypt.compareSync(data, hash)` is an uninterpreted boolean function
    supplied by the environment (`Env.bcryptCompare`).
  - JavaScript numeric coercion `+reply` yields a number for every string
    (possibly `NaN`); `JsNumber` is `Option Nat` with `none` playing the role
    of `NaN`. Only decimal numerals ever reach a nonce key (written by
    `saveServerNonce` via `toString`, i.e. `Nat.repr`), so signs, decimals and
    exponents are not modelled.
  - Exceptions used for the three classified outcomes (`NoUserFoundError`,
    `NonceExpiredError`, `AuthFailureError`) are modelled as an `Except` value,
    as suggested by the specification's design notes.
-/

namespace QuestTracker

/-- A user record from the mongo `users` collection
(`src/interfaces`, interface `User`). -/
structure User where
  username : String
  passwordHash : String
  passwordSalt : String
deriving DecidableEq

/-- A value stored in redis under some key: the raw string payload together
with the expiration (in seconds) it was written with via `setex`. -/
structure StoreEntry where
  value : String
  ttl : Nat
deriving DecidableEq

/-- The mutable world: the redis key-value store plus the consumption counters
of the `uuid()` and `nonce()` generator streams. -/
@[ext]
structure World where
  store : String → Option StoreEntry
  uuidCount : Nat
  nonceCount : Nat

/-- The immutable environment: the user directory (mongo, read-only), the
bcrypt comparison primitive, the generator streams, and the set of keys whose
`client.get` reads fail with a connectivity error. -/
structure Env where
  directory : String → Option User
  bcryptCompare : String → String → Bool
  uuids : Nat → String
  nonceGen : Nat → Nat
  readErr : String → Bool

/-- Constant `DEFAULT_NONCE_EXPIRATION_TIME` of `RedisAuthConnector`. -/
def DEFAULT_NONCE_EXPIRATION_TIME : Nat := 120

/-- Constant `DEFAULT_LOGIN_TOKEN_EXPIRATION_TIME` of `RedisAuthConnector`. -/
def DEFAULT_LOGIN_TOKEN_EXPIRATION_TIME : Nat := 1800

/-- The template string `nonce:${nonceId}`. -/
def nonceKey (nonceId : String) : String := "nonce:" ++ nonceId

/-- The template string `loginToken:${username}:${token}`. -/
def loginTokenKey (username token : String) : String :=
  "loginToken:" ++ username ++ ":" ++ token

/-- Model of `client.setex(key, seconds, value)`: store `value` under `key` with
expiration `seconds`. -/
def setex (w : World) (key : String) (seconds : Nat) (value : String) : World :=
  { w with store := fun k => if k = key then some ⟨value, seconds⟩ else w.store k }

/-- Model of `client.del(key)`: unconditional, idempotent delete. -/
def del (w : World) (key : String) : World :=
  { w with store := fun k => if k = key then none else w.store k }

/-- Model of `client.get(key, (err, reply) => ...)`: the pair observed by the callback.
On a connectivity error the flag is set and the reply is null; otherwise the
reply is the stored string, or null if the key is absent/expired. -/
def clientGet (env : Env) (w : World) (key : String) : Bool × Option String :=
  if env.readErr key then (true, none)
  else (false, (w.store key).map StoreEntry.value)

/-- A JavaScript number that may be `NaN` (`none`). -/
abbrev JsNumber := Option Nat

/-- JavaScript unary plus applied to a reply string: decimal numerals coerce to
their value, the empty string to `0`, anything else (here) to `NaN`. The digit
fold mirrors `String.toNat` from the Lean core library, phrased over the
character list so that it evaluates by kernel reduction. -/
def jsToNumber (s : String) : JsNumber :=
  if s = "" then some 0
  else if s.data.all Char.isDigit then
    some (s.data.foldl (fun n c => n * 10 + (c.toNat - '0'.toNat)) 0)
  else none

/-- JavaScript stringification of a number, as used by template literals. -/
def jsNumToString : JsNumber → String
  | none => "NaN"
  | some n => Nat.repr n

/-- Method `RedisAuthConnector.saveServerNonce`: mint a fresh uuid, store the nonce
value (serialized with `toString`) under `nonce:${id}` with the given
expiration (default 120s), and return the id. -/
def saveServerNonce (env : Env) (w : World) (nonceValue : Nat)
    (expirationTimeSeconds : Nat := DEFAULT_NONCE_EXPIRATION_TIME) :
    String × World :=
  let nonceIdentifier := env.uuids w.uuidCount
  let w1 : World := { w with uuidCount := w.uuidCount + 1 }
  (nonceIdentifier,
    setex w1 (nonceKey nonceIdentifier) expirationTimeSeconds (Nat.repr nonceValue))

/-- Method `RedisAuthConnector.invalidateServerNonce`: `client.del` on the nonce key. -/
def invalidateServerNonce (w : World) (nonceId : String) : World :=
  del w (nonceKey nonceId)

/-- Method `RedisAuthConnector.getServerNonce`: resolves null if the callback saw an
error or a null reply, otherwise the numeric coercion `+reply`. -/
def getServerNonce (env : Env) (w : World) (nonceId : String) : Option JsNumber :=
  match clientGet env w (nonceKey nonceId) with
  | (true, _) => none
  | (false, none) => none
  | (false, some reply) => some (jsToNumber reply)

/-- Method `RedisAuthConnector.addOrRefreshLoginToken`: `if (!tokenToRefresh)
tokenToRefresh = uuid()` — note that in JavaScript the empty string is falsy,
so an empty supplied token also mints a fresh uuid — then `setex` of
`"logged in"` under `loginToken:${username}:${token}` with the given
expiration (default 1800s), returning the token. -/
def addOrRefreshLoginToken (env : Env) (w : World) (username : String)
    (tokenToRefresh : Option String := none)
    (tokenExpirationSeconds : Nat := DEFAULT_LOGIN_TOKEN_EXPIRATION_TIME) :
    String × World :=
  let minted : String × World :=
    match tokenToRefresh with
    | none => (env.uuids w.uuidCount, { w with uuidCount := w.uuidCount + 1 })
    | some t =>
      if t = "" then (env.uuids w.uuidCount, { w with uuidCount := w.uuidCount + 1 })
      else (t, w)
  (minted.1,
    setex minted.2 (loginTokenKey username minted.1) tokenExpirationSeconds "logged in")

/-- Method `RedisAuthConnector.invalidateLoginToken`: `client.del` on the token key. -/
def invalidateLoginToken (w : World) (username token : String) : World :=
  del w (loginTokenKey username token)

/-- Method `RedisAuthConnector.loginTokenValid`: resolves false if the callback saw an
error or a null reply, true otherwise. -/
def loginTokenValid (env : Env) (w : World) (username token : String) : Bool :=
  match clientGet env w (loginTokenKey username token) with
  | (true, _) => false
  | (false, none) => false
  | (false, some _) => true

/-- The three classified authentication failures
(`NoUserFoundError`, `NonceExpiredError`, `AuthFailureError`). -/
inductive AuthError where
  | noUserFound
  | nonceExpired
  | authFailure
deriving DecidableEq

/-- The `SavedNonce` interface returned by `retrieveNonceForLogin`. -/
structure SavedNonce where
  id : String
  serverNonce : Nat
deriving DecidableEq

/-- Method `AdminLoginService.retrieveNonceForLogin`: generate a nonce value and cache
it via the Nonce Ledger. -/
def retrieveNonceForLogin (env : Env) (w : World) : SavedNonce × World :=
  let serverNonce := env.nonceGen w.nonceCount
  let w1 : World := { w with nonceCount := w.nonceCount + 1 }
  let idw := saveServerNonce env w1 serverNonce
  (⟨idw.1, serverNonce⟩, idw.2)

/-- Method `AdminLoginService.getUserSalt`: directory lookup, throwing
`NoUserFoundError` on a miss. -/
def getUserSalt (env : Env) (username : String) : Except AuthError String :=
  match env.directory username with
  | none => .error .noUserFound
  | some user => .ok user.passwordSalt

/-- Method `AdminLoginService.getAccessToken` (the spec's `completeLogin`): fetch the
stored nonce and the user record concurrently (both are reads of disjoint
stores, so their order is immaterial; awaits happen in program order); fail
`NoUserFound` (invalidating the nonce) on a directory miss; fail `NonceExpired`
if the nonce resolved null; compare the client proof with
`compareSync` over the template string
`${resolvedServerNonce}${clientNonce}${resolvedUser.passwordHash}`; invalidate
the nonce; then fail `AuthFailure` on mismatch or mint a token. -/
def getAccessToken (env : Env) (w : World)
    (username clientPasswordHash serverNonceId : String) (clientNonce : Nat) :
    Except AuthError String × World :=
  let serverNonceResult := getServerNonce env w serverNonceId
  match env.directory username with
  | none => (.error .noUserFound, invalidateServerNonce w serverNonceId)
  | some resolvedUser =>
    match serverNonceResult with
    | none => (.error .nonceExpired, w)
    | some resolvedServerNonce =>
      let validLogin := env.bcryptCompare
        (jsNumToString resolvedServerNonce ++ Nat.repr clientNonce
          ++ resolvedUser.passwordHash)
        clientPasswordHash
      let w1 := invalidateServerNonce w serverNonceId
      if !validLogin then (.error .authFailure, w1)
      else
        let tok := addOrRefreshLoginToken env w1 username
        (.ok tok.1, tok.2)

/-- Method `AdminLoginService.checkLoginValidityAndResetExpiration` (the spec's
`validateAndRefresh`): check validity; if valid, refresh the same token;
return the validity flag. -/
def checkLoginValidityAndResetExpiration (env : Env) (w : World)
    (username token : String) : Bool × World :=
  let tokenValid := loginTokenValid env w username token
  if tokenValid then
    let r := addOrRefreshLoginToken env w username (some token)
    (tokenValid, r.2)
  else (tokenValid, w)

/-- Method `AdminLoginService.logOut`: delegate to the Token Ledger's invalidate. -/
def logOut (w : World) (username token : String) : World :=
  invalidateLoginToken w username token

/-- Outcome of the `GET /:userId/nonce` controller handler. -/
inductive BeginLoginResponse where
  | ok (snonce : SavedNonce) (passwordSalt : String)
  | notFound
  | serverError
deriving DecidableEq

/-- The `GET /:userId/nonce` handler of `AuthController` (the spec's
`beginLogin`): it calls `retrieveNonceForLogin()` first — synchronously minting
and storing a nonce — and only then awaits `getUserSalt(userId)`, responding
404 if that throws `NoUserFoundError`. -/
def beginLogin (env : Env) (w : World) (userId : String) :
    BeginLoginResponse × World :=
  let snw := retrieveNonceForLogin env w
  match getUserSalt env userId with
  | .ok salt => (.ok snw.1 salt, snw.2)
  | .error .noUserFound => (.notFound, snw.2)
  | .error _ => (.serverError, snw.2)

/-- The digit-accumulation step used by `String.toNat`. -/
def decStep (n : Nat) (c : Char) : Nat := n * 10 + (c.toNat - '0'.toNat)

/-!
Concrete environments and worlds used to exhibit counterexamples and to
instantiate hypothesis-bearing theorems at explicit inputs.
-/

/-- A healthy environment: one directory user `alice` (hash `"H"`, salt `"S"`),
bcrypt comparison modelled as string equality, no read errors. -/
def exEnv : Env where
  directory := fun u => if u = "alice" then some ⟨"alice", "H", "S"⟩ else none
  bcryptCompare := fun d h => d == h
  uuids := fun n => "uuid" ++ Nat.repr n
  nonceGen := fun n => n + 42
  readErr := fun _ => false

/-- A world holding one server nonce `n1` with value `42`. -/
def exWorld : World where
  store := fun k => if k = nonceKey "n1" then some ⟨"42", 120⟩ else none
  uuidCount := 0
  nonceCount := 0

/-- Same directory as `exEnv`, but the reads of the nonce key `n1` and of
alice's token key `tok` fail with a connectivity error. -/
def errEnv : Env where
  directory := fun u => if u = "alice" then some ⟨"alice", "H", "S"⟩ else none
  bcryptCompare := fun d h => d == h
  uuids := fun n => "uuid" ++ Nat.repr n
  nonceGen := fun n => n + 42
  readErr := fun k => k == nonceKey "n1" || k == loginTokenKey "alice" "tok"

/-- A world holding the nonce `n1` and a live token `tok` for alice. -/
def errWorld : World where
  store := fun k =>
    if k = nonceKey "n1" then some ⟨"42", 120⟩
    else if k = loginTokenKey "alice" "tok" then some ⟨"logged in", 1800⟩
    else none
  uuidCount := 0
  nonceCount := 0

/-- A world in which the empty string is stored as a live token for alice. -/
def emptyTokWorld : World where
  store := fun k =>
    if k = loginTokenKey "alice" "" then some ⟨"logged in", 100⟩ else none
  uuidCount := 0
  nonceCount := 0

/-!
Round-trip of the decimal serialization: `toString` on write (`Nat.repr`)
and numeric coercion `+reply` on read (`jsToNumber`) are mutually inverse.
Lean's `Nat.repr` is `(Nat.toDigits 10 n).asString`, so the work is a set of
lemmas about `Nat.toDigitsCore`.
-/

theorem digitChar_toNat : ∀ m, m < 10 → (Nat.digitChar m).toNat - '0'.toNat = m := by
  decide

theorem digitChar_decStep (a m : Nat) (h : m < 10) :
    decStep a (Nat.digitChar m) = a * 10 + m := by
  rw [decStep, digitChar_toNat m h]

theorem digitChar_isDigit : ∀ m, m < 10 → (Nat.digitChar m).isDigit = true := by
  decide

theorem toDigitsCore_succ (fuel n : Nat) (acc : List Char) :
    Nat.toDigitsCore 10 (fuel + 1) n acc =
      if n / 10 = 0 then Nat.digitChar (n % 10) :: acc
      else Nat.toDigitsCore 10 fuel (n / 10) (Nat.digitChar (n % 10) :: acc) :=
  rfl

theorem toDigitsCore_acc (fuel : Nat) : ∀ (n : Nat) (acc : List Char),
    Nat.toDigitsCore 10 fuel n acc = Nat.toDigitsCore 10 fuel n [] ++ acc := by
  induction fuel with
  | zero => intro n acc; simp [Nat.toDigitsCore]
  | succ fuel ih =>
    intro n acc
    rw [toDigitsCore_succ, toDigitsCore_succ]
    by_cases h : n / 10 = 0
    · simp [h]
    · rw [if_neg h, if_neg h]
      rw [ih (n / 10) (Nat.digitChar (n % 10) :: acc),
        ih (n / 10) [Nat.digitChar (n % 10)]]
      simp

theorem toDigitsCore_fuel (fuel₁ : Nat) : ∀ (fuel₂ n : Nat) (acc : List Char),
    n < fuel₁ → n < fuel₂ →
    Nat.toDigitsCore 10 fuel₁ n acc = Nat.toDigitsCore 10 fuel₂ n acc := by
  induction fuel₁ with
  | zero => intro fuel₂ n acc h1 _; omega
  | succ fuel₁ ih =>
    intro fuel₂ n acc h1 h2
    cases fuel₂ with
    | zero => omega
    | succ fuel₂ =>
      rw [toDigitsCore_succ, toDigitsCore_succ]
      by_cases h : n / 10 = 0
      · rw [if_pos h, if_pos h]
      · rw [if_neg h, if_neg h]
        exact ih fuel₂ (n / 10) _ (by omega) (by omega)

theorem toDigits_step (n : Nat) :
    Nat.toDigits 10 n =
      if n < 10 then [Nat.digitChar n]
      else Nat.toDigits 10 (n / 10) ++ [Nat.digitChar (n % 10)] := by
  rw [Nat.toDigits, Nat.toDigits, toDigitsCore_succ]
  by_cases h : n < 10
  · rw [if_pos (by omega : n / 10 = 0), if_pos h, Nat.mod_eq_of_lt h]
  · rw [if_neg (by omega : ¬ n / 10 = 0), if_neg h]
    rw [toDigitsCore_acc]
    congr 1
    exact toDigitsCore_fuel n (n / 10 + 1) (n / 10) [] (by omega) (by omega)

theorem toDigits_ne_nil (n : Nat) : Nat.toDigits 10 n ≠ [] := by
  rw [toDigits_step]
  by_cases h : n < 10 <;> simp [h]

theorem toDigits_all_digits (n : Nat) :
    ∀ c ∈ Nat.toDigits 10 n, c.isDigit = true := by
  induction n using Nat.strong_induction_on with
  | _ n ih =>
    rw [toDigits_step]
    by_cases h : n < 10
    · simp only [h, if_true, List.mem_singleton]
      rintro c rfl
      exact digitChar_isDigit n h
    · simp only [h, if_false, List.mem_append, List.mem_singleton]
      rintro c (hc | rfl)
      · have hn : 0 < n := by omega
        exact ih (n / 10) (Nat.div_lt_self hn (by norm_num)) c hc
      · exact digitChar_isDigit _ (Nat.mod_lt n (by norm_num))

theorem toDigits_foldl (n : Nat) :
    (Nat.toDigits 10 n).foldl decStep 0 = n := by
  induction n using Nat.strong_induction_on with
  | _ n ih =>
    rw [toDigits_step]
    by_cases h : n < 10
    · simp only [h, if_true, List.foldl_cons, List.foldl_nil]
      rw [digitChar_decStep 0 n h]
      omega
    · simp only [h, if_false, List.foldl_append, List.foldl_cons, List.foldl_nil]
      have hn : 0 < n := by omega
      rw [ih (n / 10) (Nat.div_lt_self hn (by norm_num))]
      rw [digitChar_decStep (n / 10) (n % 10) (Nat.mod_lt n (by norm_num))]
      omega

theorem repr_data (n : Nat) : (Nat.repr n).data = Nat.toDigits 10 n := rfl

theorem repr_ne_empty (n : Nat) : Nat.repr n ≠ "" := by
  intro h
  have h2 : (Nat.repr n).data = ("" : String).data := congrArg String.data h
  rw [repr_data] at h2
  exact toDigits_ne_nil n h2

theorem jsToNumber_repr (n : Nat) : jsToNumber (Nat.repr n) = some n := by
  have hall : (Nat.repr n).data.all Char.isDigit = true := by
    rw [List.all_eq_true, repr_data]
    exact toDigits_all_digits n
  rw [jsToNumber, if_neg (repr_ne_empty n), if_pos hall, repr_data]
  exact congrArg some (toDigits_foldl n)

/-- A token-ledger key never collides with a nonce-ledger key: the former
starts with `loginToken:`, the latter with `nonce:`. -/
theorem loginTokenKey_ne_nonceKey (u t nid : String) :
    loginTokenKey u t ≠ nonceKey nid := by
  intro h
  have h2 : ("loginToken:" ++ u ++ ":" ++ t).data = ("nonce:" ++ nid).data :=
    congrArg String.data h
  simp only [String.data_append] at h2
  simp at h2

/-!
Helper lemmas shared by several claims.
-/

/-- If a healthy read (no connectivity error) of a nonce resolved null, the
nonce key is truly absent from the store. -/
theorem getServerNonce_none_store (env : Env) (w : World) (nid : String)
    (hok : env.readErr (nonceKey nid) = false)
    (hsn : getServerNonce env w nid = none) :
    w.store (nonceKey nid) = none := by
  cases hs : w.store (nonceKey nid) with
  | none => rfl
  | some v => simp [getServerNonce, clientGet, hok, hs] at hsn

/-- If the nonce key is absent, `getServerNonce` resolves null regardless of
connectivity. -/
theorem getServerNonce_of_store_none (env : Env) (w : World) (nid : String)
    (hstore : w.store (nonceKey nid) = none) :
    getServerNonce env w nid = none := by
  cases hre : env.readErr (nonceKey nid) <;>
    simp [getServerNonce, clientGet, hre, hstore]

/-- A `completeLogin` call against a store where the nonce key is absent fails
with `NonceExpired` whenever the username has a directory record. -/
theorem getAccessToken_nonceExpired (env : Env) (w : World) (u p nid : String)
    (cn : Nat) (hstore : w.store (nonceKey nid) = none)
    (hdir : env.directory u ≠ none) :
    (getAccessToken env w u p nid cn).1 = .error .nonceExpired := by
  obtain ⟨usr, husr⟩ := Option.ne_none_iff_exists'.mp hdir
  simp [getAccessToken, husr, getServerNonce_of_store_none env w nid hstore]

/-- Whenever a `completeLogin` call does not fail with `NonceExpired` — it
returned a token, or failed with `NoUserFound` or `AuthFailure` — the nonce key
is absent from the store in the post-state: every such path runs
`invalidateServerNonce` before returning. -/
theorem getAccessToken_consumed (env : Env) (w : World) (u p nid : String)
    (cn : Nat)
    (hne : (getAccessToken env w u p nid cn).1 ≠ .error .nonceExpired) :
    (getAccessToken env w u p nid cn).2.store (nonceKey nid) = none := by
  cases hd : env.directory u with
  | none =>
    simp only [getAccessToken, hd]
    simp [invalidateServerNonce, del]
  | some ru =>
    cases hsn : getServerNonce env w nid with
    | none =>
      exfalso
      apply hne
      simp [getAccessToken, hd, hsn]
    | some sv =>
      cases hv : env.bcryptCompare
          (jsNumToString sv ++ Nat.repr cn ++ ru.passwordHash) p with
      | false =>
        simp only [getAccessToken, hd, hsn, hv]
        simp [invalidateServerNonce, del]
      | true =>
        simp only [getAccessToken, hd, hsn, hv]
        simp only [Bool.not_true, Bool.false_eq_true, if_false,
          addOrRefreshLoginToken, setex, invalidateServerNonce, del]
        rw [if_neg ((loginTokenKey_ne_nonceKey u _ nid).symm)]
        simp

/-- Inversion of the `NonceExpired` outcome: it arises only from the branch
that saw a null nonce read, which leaves the world untouched. -/
theorem getAccessToken_nonceExpired_inv (env : Env) (w : World)
    (u p nid : String) (cn : Nat)
    (h : (getAccessToken env w u p nid cn).1 = .error .nonceExpired) :
    (getAccessToken env w u p nid cn).2 = w ∧ getServerNonce env w nid = none := by
  cases hd : env.directory u with
  | none => simp [getAccessToken, hd] at h
  | some ru =>
    cases hsn : getServerNonce env w nid with
    | none => exact ⟨by simp [getAccessToken, hd, hsn], rfl⟩
    | some sv =>
      cases hv : env.bcryptCompare
          (jsNumToString sv ++ Nat.repr cn ++ ru.passwordHash) p <;>
        simp [getAccessToken, hd, hsn, hv] at h

/-- A valid/accepted outcome implies the user had a directory record. -/
theorem getAccessToken_observed_user (env : Env) (w : World)
    (u p nid : String) (cn : Nat)
    (h : (getAccessToken env w u p nid cn).1 = .error .authFailure
      ∨ ∃ tok, (getAccessToken env w u p nid cn).1 = .ok tok) :
    env.directory u ≠ none := by
  intro hd
  simp [getAccessToken, hd] at h

/-!
The claims.
-/

/-- C1: One-time nonce / no replay. If a `completeLogin` call observed the
nonce as present — it returned a token or failed with `AuthFailure` — then in
the post-state the nonce is gone, every later `completeLogin` with the same
`nonceId` and a directory-known username fails with `NonceExpired`, and in
particular the identical resubmission fails with `NonceExpired`. -/
theorem C1_one_time_nonce (env : Env) (w : World) (u p nid : String) (cn : Nat)
    (h : (getAccessToken env w u p nid cn).1 = .error .authFailure
      ∨ ∃ tok, (getAccessToken env w u p nid cn).1 = .ok tok) :
    (getAccessToken env w u p nid cn).2.store (nonceKey nid) = none
    ∧ (∀ u2 p2 cn2, env.directory u2 ≠ none →
        (getAccessToken env (getAccessToken env w u p nid cn).2 u2 p2 nid cn2).1
          = .error .nonceExpired)
    ∧ (getAccessToken env (getAccessToken env w u p nid cn).2 u p nid cn).1
        = .error .nonceExpired := by
  have hne : (getAccessToken env w u p nid cn).1 ≠ .error .nonceExpired := by
    rcases h with h | ⟨tok, h⟩ <;> rw [h] <;> simp
  have hpost := getAccessToken_consumed env w u p nid cn hne
  exact ⟨hpost,
    fun u2 p2 cn2 hd2 =>
      getAccessToken_nonceExpired env _ u2 p2 nid cn2 hpost hd2,
    getAccessToken_nonceExpired env _ u p nid cn hpost
      (getAccessToken_observed_user env w u p nid cn h)⟩

/-- C1 witness: a concrete rejected first attempt (wrong proof) consumes the
nonce, and the identical resubmission fails with `NonceExpired`. -/
theorem C1_witness :
    ((getAccessToken exEnv exWorld "alice" "wrong" "n1" 7).1
        = .error .authFailure
      ∨ ∃ tok, (getAccessToken exEnv exWorld "alice" "wrong" "n1" 7).1 = .ok tok)
    ∧ (getAccessToken exEnv exWorld "alice" "wrong" "n1" 7).2.store
        (nonceKey "n1") = none
    ∧ (getAccessToken exEnv
        (getAccessToken exEnv exWorld "alice" "wrong" "n1" 7).2
        "alice" "wrong" "n1" 7).1 = .error .nonceExpired := by
  have h : (getAccessToken exEnv exWorld "alice" "wrong" "n1" 7).1
      = .error .authFailure ∨
      ∃ tok, (getAccessToken exEnv exWorld "alice" "wrong" "n1" 7).1 = .ok tok :=
    Or.inl rfl
  have hc := C1_one_time_nonce exEnv exWorld "alice" "wrong" "n1" 7 h
  exact ⟨h, hc.1, hc.2.2⟩

/-- C2 counterexample: with the nonce `n1` present in the store but its read
failing with a connectivity error, `completeLogin` returns `NonceExpired`
while the nonce is still present in the store — so the claim that the nonce is
absent whenever one of the three classified failures is returned is false. -/
theorem C2_counterexample :
    (getAccessToken errEnv errWorld "alice" "427H" "n1" 7).1
      = .error .nonceExpired
    ∧ (getAccessToken errEnv errWorld "alice" "427H" "n1" 7).2.store
        (nonceKey "n1") = some ⟨"42", 120⟩ :=
  ⟨rfl, by decide⟩

/-- C2 (amended): provided the store read of the nonce did not fail, every
`completeLogin` call that returns one of the three classified failures leaves
the nonce key absent from the store at the moment the failure is returned:
the `NoUserFound` and `AuthFailure` paths delete it before throwing, and the
`NonceExpired` path arises only when it is already absent. -/
theorem C2_nonce_absent_on_failure (env : Env) (w : World) (u p nid : String)
    (cn : Nat) (e : AuthError)
    (hok : env.readErr (nonceKey nid) = false)
    (h : (getAccessToken env w u p nid cn).1 = .error e) :
    (getAccessToken env w u p nid cn).2.store (nonceKey nid) = none := by
  by_cases he : e = .nonceExpired
  · subst he
    obtain ⟨hw, hsn⟩ := getAccessToken_nonceExpired_inv env w u p nid cn h
    rw [hw]
    exact getServerNonce_none_store env w nid hok hsn
  · apply getAccessToken_consumed
    rw [h]
    intro hc
    exact he (by simpa using hc)

/-- C2 witness: a concrete `AuthFailure` call leaves the nonce absent. -/
theorem C2_witness :
    exEnv.readErr (nonceKey "n1") = false
    ∧ (getAccessToken exEnv exWorld "alice" "wrong" "n1" 7).1
        = .error .authFailure
    ∧ (getAccessToken exEnv exWorld "alice" "wrong" "n1" 7).2.store
        (nonceKey "n1") = none :=
  ⟨rfl, rfl,
    C2_nonce_absent_on_failure exEnv exWorld "alice" "wrong" "n1" 7
      .authFailure rfl rfl⟩

/-- C3: Successful round trip. With a directory record for `u`, the server
nonce stored under `nid`, a healthy store, and a client proof that verifies
against the concatenation of the server nonce, the client nonce and the stored
hash, `completeLogin` returns the freshly minted token and an immediate
`validateAndRefresh` on it returns `true`. -/
theorem C3_successful_round_trip (env : Env) (w : World)
    (u hsh salt proofStr nid : String) (sv cn nttl : Nat)
    (hdir : env.directory u = some ⟨u, hsh, salt⟩)
    (hnonce : w.store (nonceKey nid) = some ⟨Nat.repr sv, nttl⟩)
    (hok : env.readErr (nonceKey nid) = false)
    (hproof : env.bcryptCompare (Nat.repr sv ++ Nat.repr cn ++ hsh) proofStr
        = true)
    (htok : env.readErr (loginTokenKey u (env.uuids w.uuidCount)) = false) :
    (getAccessToken env w u proofStr nid cn).1 = .ok (env.uuids w.uuidCount)
    ∧ (checkLoginValidityAndResetExpiration env
        (getAccessToken env w u proofStr nid cn).2 u
        (env.uuids w.uuidCount)).1 = true := by
  have hsn : getServerNonce env w nid = some (some sv) := by
    simp [getServerNonce, clientGet, hok, hnonce, jsToNumber_repr]
  have hmain : getAccessToken env w u proofStr nid cn
      = (.ok (env.uuids w.uuidCount),
          setex { invalidateServerNonce w nid with uuidCount := w.uuidCount + 1 }
            (loginTokenKey u (env.uuids w.uuidCount))
            DEFAULT_LOGIN_TOKEN_EXPIRATION_TIME "logged in") := by
    simp [getAccessToken, hdir, hsn, jsNumToString, hproof,
      addOrRefreshLoginToken, invalidateServerNonce, del]
  refine ⟨by rw [hmain], ?_⟩
  rw [hmain]
  simp [checkLoginValidityAndResetExpiration, loginTokenValid, clientGet, htok,
    setex]

/-- C3 witness: alice logs in with a correctly computed proof and the returned
token immediately validates. -/
theorem C3_witness :
    exEnv.directory "alice" = some ⟨"alice", "H", "S"⟩
    ∧ exWorld.store (nonceKey "n1") = some ⟨Nat.repr 42, 120⟩
    ∧ exEnv.bcryptCompare (Nat.repr 42 ++ Nat.repr 7 ++ "H") "427H" = true
    ∧ (getAccessToken exEnv exWorld "alice" "427H" "n1" 7).1
        = .ok (exEnv.uuids exWorld.uuidCount)
    ∧ (checkLoginValidityAndResetExpiration exEnv
        (getAccessToken exEnv exWorld "alice" "427H" "n1" 7).2 "alice"
        (exEnv.uuids exWorld.uuidCount)).1 = true := by
  have hc := C3_successful_round_trip exEnv exWorld "alice" "H" "S" "427H" "n1"
    42 7 120 (by decide) (by decide) rfl (by decide) rfl
  exact ⟨by decide, by decide, by decide, hc.1, hc.2⟩

/-- C4 counterexample: `beginLogin` for the unknown user `ghost` responds
`NoUserFound`, yet the nonce ledger is changed — the handler minted and stored
a nonce before the directory lookup resolved. -/
theorem C4_counterexample :
    (beginLogin exEnv exWorld "ghost").1 = .notFound
    ∧ exWorld.store (nonceKey "uuid0") = none
    ∧ (beginLogin exEnv exWorld "ghost").2.store (nonceKey "uuid0")
        = some ⟨"42", 120⟩ :=
  ⟨by decide, by decide, by decide⟩

/-- C4 (amended): `beginLogin` for a username with no directory record fails
with `NoUserFound`, but a nonce IS created as a side effect: the handler
stores a fresh nonce (default 120s TTL) before the user lookup resolves; its
id is simply never returned to the caller. -/
theorem C4_missing_user_still_creates_nonce (env : Env) (w : World)
    (userId : String) (h : env.directory userId = none) :
    (beginLogin env w userId).1 = .notFound
    ∧ (beginLogin env w userId).2.store (nonceKey (env.uuids w.uuidCount))
        = some ⟨Nat.repr (env.nonceGen w.nonceCount),
            DEFAULT_NONCE_EXPIRATION_TIME⟩ := by
  constructor
  · simp [beginLogin, getUserSalt, h]
  · simp [beginLogin, getUserSalt, h, retrieveNonceForLogin, saveServerNonce,
      setex]

/-- C4 witness: the amended claim at the concrete `ghost` request. -/
theorem C4_witness :
    exEnv.directory "ghost" = none
    ∧ (beginLogin exEnv exWorld "ghost").1 = .notFound
    ∧ (beginLogin exEnv exWorld "ghost").2.store
        (nonceKey (exEnv.uuids exWorld.uuidCount))
        = some ⟨Nat.repr (exEnv.nonceGen exWorld.nonceCount),
            DEFAULT_NONCE_EXPIRATION_TIME⟩ := by
  have hc := C4_missing_user_still_creates_nonce exEnv exWorld "ghost"
    (by decide)
  exact ⟨by decide, hc.1, hc.2⟩

/-- C5 counterexample: with connectivity errors on the reads, a present nonce
resolves as if expired (and a correctly computed proof is rejected with
`NonceExpired`), and a present, live token is reported invalid — unexpected
store failures ARE converted into classified outcomes and a false validity
result, so the claim is false. -/
theorem C5_counterexample :
    errWorld.store (nonceKey "n1") = some ⟨"42", 120⟩
    ∧ (getAccessToken errEnv errWorld "alice" "427H" "n1" 7).1
        = .error .nonceExpired
    ∧ errWorld.store (loginTokenKey "alice" "tok") = some ⟨"logged in", 1800⟩
    ∧ loginTokenValid errEnv errWorld "alice" "tok" = false :=
  ⟨by decide, rfl, by decide, by decide⟩

/-- C5 (amended): unexpected read failures from the store are silently masked,
not propagated: an errored nonce read resolves null (classified downstream as
`NonceExpired`) and an errored token read resolves `false` (a false validity
result). Only in the absence of a read error do the two reads reflect the true
store state. -/
theorem C5_read_errors_masked (env env2 : Env) (w w2 : World)
    (u t nid u2 t2 nid2 : String)
    (hn : env.readErr (nonceKey nid) = true)
    (ht : env.readErr (loginTokenKey u t) = true)
    (hn2 : env2.readErr (nonceKey nid2) = false)
    (ht2 : env2.readErr (loginTokenKey u2 t2) = false) :
    getServerNonce env w nid = none
    ∧ loginTokenValid env w u t = false
    ∧ getServerNonce env2 w2 nid2
        = ((w2.store (nonceKey nid2)).map StoreEntry.value).map jsToNumber
    ∧ loginTokenValid env2 w2 u2 t2 = (w2.store (loginTokenKey u2 t2)).isSome := by
  refine ⟨?_, ?_, ?_, ?_⟩
  · simp [getServerNonce, clientGet, hn]
  · simp [loginTokenValid, clientGet, ht]
  · cases hs : w2.store (nonceKey nid2) <;>
      simp [getServerNonce, clientGet, hn2, hs]
  · cases hs : w2.store (loginTokenKey u2 t2) <;>
      simp [loginTokenValid, clientGet, ht2, hs]

/-- C5 witness: the amended claim at the concrete erroring and healthy
environments. -/
theorem C5_witness :
    errEnv.readErr (nonceKey "n1") = true
    ∧ getServerNonce errEnv errWorld "n1" = none
    ∧ loginTokenValid errEnv errWorld "alice" "tok" = false
    ∧ loginTokenValid exEnv errWorld "alice" "tok"
        = (errWorld.store (loginTokenKey "alice" "tok")).isSome := by
  have hc := C5_read_errors_masked errEnv exEnv errWorld errWorld
    "alice" "tok" "n1" "alice" "tok" "n1" (by decide) (by decide) rfl rfl
  exact ⟨by decide, hc.1, hc.2.1, hc.2.2.2⟩

/-- C6 counterexample: the Token Ledger treats a supplied empty-string token as
absent (JavaScript falsiness): with an empty-string token live in the store,
`validateAndRefresh` reports it valid but mints and stores a fresh token
instead of re-storing the same value — the supposedly refreshed key keeps its
old expiry — and `issueOrRefresh` with the existing token `""` returns a
different token. -/
theorem C6_counterexample :
    loginTokenValid exEnv emptyTokWorld "alice" "" = true
    ∧ (addOrRefreshLoginToken exEnv emptyTokWorld "alice" (some "")).1 ≠ ""
    ∧ (checkLoginValidityAndResetExpiration exEnv emptyTokWorld "alice" "").2.store
        (loginTokenKey "alice" "") = some ⟨"logged in", 100⟩ :=
  ⟨by decide, by decide, by decide⟩

/-- C6 (amended): for every currently valid `(username, token)` pair whose
token is non-empty — the only kind the ledger ever mints, since minted tokens
are uuids — `validateAndRefresh` returns `true` and re-stores the very same
token value under a refreshed default expiry, and `issueOrRefresh` with that
existing token returns the same token value. -/
theorem C6_refresh_extends_not_rotates (env : Env) (w : World) (u t : String)
    (hvalid : loginTokenValid env w u t = true) (hne : t ≠ "") :
    (checkLoginValidityAndResetExpiration env w u t).1 = true
    ∧ (checkLoginValidityAndResetExpiration env w u t).2.store
        (loginTokenKey u t)
        = some ⟨"logged in", DEFAULT_LOGIN_TOKEN_EXPIRATION_TIME⟩
    ∧ (addOrRefreshLoginToken env w u (some t)).1 = t := by
  refine ⟨by simp [checkLoginValidityAndResetExpiration, hvalid], ?_, ?_⟩
  · simp [checkLoginValidityAndResetExpiration, hvalid,
      addOrRefreshLoginToken, hne, setex]
  · simp [addOrRefreshLoginToken, hne]

/-- C6 witness: the amended claim at a concrete live token. -/
theorem C6_witness :
    loginTokenValid exEnv errWorld "alice" "tok" = true
    ∧ (checkLoginValidityAndResetExpiration exEnv errWorld "alice" "tok").1
        = true
    ∧ (checkLoginValidityAndResetExpiration exEnv errWorld "alice" "tok").2.store
        (loginTokenKey "alice" "tok")
        = some ⟨"logged in", DEFAULT_LOGIN_TOKEN_EXPIRATION_TIME⟩
    ∧ (addOrRefreshLoginToken exEnv errWorld "alice" (some "tok")).1 = "tok" := by
  have hc := C6_refresh_extends_not_rotates exEnv errWorld "alice" "tok"
    (by decide) (by decide)
  exact ⟨by decide, hc.1, hc.2.1, hc.2.2⟩

/-- C7: Logout idempotence. After `logOut`, `validateAndRefresh` on the same
pair returns `false` and leaves the world unchanged; a second `logOut` on the
same pair is a no-op success — invalidation is an unconditional, idempotent
delete with no failure mode. -/
theorem C7_logout_idempotent (env : Env) (w : World) (u t : String) :
    checkLoginValidityAndResetExpiration env (logOut w u t) u t
      = (false, logOut w u t)
    ∧ logOut (logOut w u t) u t = logOut w u t := by
  constructor
  · have hv : loginTokenValid env (logOut w u t) u t = false := by
      cases hre : env.readErr (loginTokenKey u t) <;>
        simp [loginTokenValid, clientGet, hre, logOut, invalidateLoginToken, del]
    simp [checkLoginValidityAndResetExpiration, hv]
  · ext k
    · simp only [logOut, invalidateLoginToken, del]
      by_cases hk : k = loginTokenKey u t <;> simp [hk]
    · rfl
    · rfl

/-- C8: Default TTLs. Without an explicit expiry argument the Nonce Ledger
stores with TTL exactly 120 seconds and the Token Ledger with TTL exactly
1800 seconds; both are configurable through the optional expiry parameter. -/
theorem C8_default_ttls (env : Env) (w : World) (v : Nat) (u : String) :
    ((saveServerNonce env w v).2.store (nonceKey (env.uuids w.uuidCount))
      = some ⟨Nat.repr v, DEFAULT_NONCE_EXPIRATION_TIME⟩)
    ∧ DEFAULT_NONCE_EXPIRATION_TIME = 120
    ∧ ((addOrRefreshLoginToken env w u).2.store
        (loginTokenKey u (env.uuids w.uuidCount))
      = some ⟨"logged in", DEFAULT_LOGIN_TOKEN_EXPIRATION_TIME⟩)
    ∧ DEFAULT_LOGIN_TOKEN_EXPIRATION_TIME = 1800
    ∧ (∀ e, (saveServerNonce env w v e).2.store
        (nonceKey (env.uuids w.uuidCount)) = some ⟨Nat.repr v, e⟩)
    ∧ (∀ e, (addOrRefreshLoginToken env w u none e).2.store
        (loginTokenKey u (env.uuids w.uuidCount)) = some ⟨"logged in", e⟩) := by
  refine ⟨?_, rfl, ?_, rfl, fun e => ?_, fun e => ?_⟩ <;>
    simp [saveServerNonce, addOrRefreshLoginToken, setex]

/-- C9: Nonce value round-trip through the string store. Saving any integer
nonce value and reading it back through the returned id (healthy store, before
invalidation or expiry) yields exactly that value: `toString` on write and the
numeric coercion on read are mutually inverse. -/
theorem C9_nonce_roundtrip (env : Env) (w : World) (v : Nat)
    (hok : env.readErr (nonceKey (env.uuids w.uuidCount)) = false) :
    getServerNonce env (saveServerNonce env w v).2 (saveServerNonce env w v).1
      = some (some v) := by
  simp [getServerNonce, saveServerNonce, setex, clientGet, hok, jsToNumber_repr]

/-- C9 witness: the round trip at a concrete large nonce value. -/
theorem C9_witness :
    exEnv.readErr (nonceKey (exEnv.uuids exWorld.uuidCount)) = false
    ∧ getServerNonce exEnv (saveServerNonce exEnv exWorld 987654321).2
        (saveServerNonce exEnv exWorld 987654321).1 = some (some 987654321) :=
  ⟨rfl, C9_nonce_roundtrip exEnv exWorld 987654321 rfl⟩

/-- C10: Invalid token is a pure read. When the pair is not currently valid,
`validateAndRefresh` returns `false` and the returned world is exactly the
input world — no key is created, refreshed or deleted anywhere in the store. -/
theorem C10_invalid_token_pure_read (env : Env) (w : World) (u t : String)
    (h : loginTokenValid env w u t = false) :
    checkLoginValidityAndResetExpiration env w u t = (false, w) := by
  simp [checkLoginValidityAndResetExpiration, h]

/-- C10 witness: a concrete invalid pair leaves the world untouched. -/
theorem C10_witness :
    loginTokenValid exEnv exWorld "alice" "tok" = false
    ∧ checkLoginValidityAndResetExpiration exEnv exWorld "alice" "tok"
        = (false, exWorld) :=
  ⟨by decide,
    C10_invalid_token_pure_read exEnv exWorld "alice" "tok" (by decide)⟩

end QuestTracker
